import Mathlib

/-!
Shallow embedding of the threshold-evaluation logic of the
skymaya/nagios-plugins-python checks, together with proofs about it.

Each check's `main` threshold logic is embedded as a function from the
already-collected metric values (metric acquisition over SNMP / sockets /
subprocesses is out of scope) to `Option (String × Nat)`:
`some (line, code)` means the process prints exactly `line` and exits with
`code`; `none` means control falls off the end of `main` without printing,
so the Python process exits 0 with no output.

Numeric metric values that are Python floats are modelled as rationals;
Python ints are modelled as `Int`.  Messages are assembled exactly as the
format strings in the source assemble them (the rendering of the numeric
payload inside a message uses Lean's `toString`, which agrees with Python
on integers; no claim below depends on the rendering of a non-integral
number).
-/

namespace NagiosPlugins

/-- Severity, as the spec's ordered enumeration (spec-side notion used to
state aggregation claims; the scripts themselves only use string literals
and exit-code literals). -/
inductive Sev where
  | ok
  | warning
  | critical
deriving DecidableEq, Repr

/-- Numeric value of a severity, equal to the Nagios exit code. -/
def Sev.num : Sev → Nat
  | .ok => 0
  | .warning => 1
  | .critical => 2

/-- Keyword the status line begins with for each severity. -/
def Sev.label : Sev → String
  | .ok => "OK"
  | .warning => "WARNING"
  | .critical => "CRITICAL"

/-- Maximum (most severe) of two severities, compared by numeric value. -/
def sevMax (a b : Sev) : Sev :=
  if a.num ≤ b.num then b else a

/-- from check_users.py, `main` (lines 111-127): sequential `if` blocks on
`users >= critical`, `users >= warn`, `users < warn`, each printing one
line and exiting. -/
def usersMain (users warn critical : Int) : Option (String × Nat) :=
  if users ≥ critical then
    some ("CRITICAL: " ++ toString users ++ " logged in users", 2)
  else if users ≥ warn then
    some ("WARNING: " ++ toString users ++ " logged in users", 1)
  else if users < warn then
    some ("OK: " ++ toString users ++ " logged in users", 0)
  else none

/-- from check_time.py, `main` (lines 138-148): the threshold chain applied
to the computed drift `diff`; `ts` stands for the rendered host timestamp
interpolated into the message. -/
def timeEval (diff warn critical : ℚ) (ts : String) : Option (String × Nat) :=
  if diff ≥ critical then
    some ("CRITICAL: drift is " ++ toString diff ++ ", time is " ++ ts ++ " UTC", 2)
  else if diff ≥ warn then
    some ("WARNING: drift is " ++ toString diff ++ ", time is " ++ ts ++ " UTC", 1)
  else if diff < warn then
    some ("OK: drift is " ++ toString diff ++ ", time is " ++ ts ++ " UTC", 0)
  else none

/-- Python's `round(x, 3)` on the exact value: nearest multiple of 1/1000.
For every value this file feeds it (a whole number of seconds divided
by 60, scaled by 1000 this is 50*s/3, never a half-integer), there is no
tie, so the tie-breaking convention is irrelevant. -/
def round3 (q : ℚ) : ℚ := (round (1000 * q) : ℚ) / 1000

/-- from check_time.py, `main` line 136:
`diff = round(abs(now - host_now).seconds / 60.0, 3)`.
`t` is the absolute difference between the two clocks as a whole number of
seconds; Python's `timedelta.seconds` field is that difference reduced
modulo 86400 (the sub-second remainder lives in `.microseconds` and is
discarded by `.seconds`). -/
def timeDrift (t : Nat) : ℚ := round3 ((t % 86400 : Nat) / 60)

/-- from check_time.py, `main` (lines 130-148): drift computation followed
by the threshold chain. -/
def timeMain (t : Nat) (warn critical : ℚ) (ts : String) : Option (String × Nat) :=
  timeEval (timeDrift t) warn critical ts

/-- from check_ssl.py, `main` (lines 112-136): `difference` is the signed
number of days until certificate expiry; five sequential `if` blocks, in
source order.  Note the fourth block's condition is
`difference <= warn and difference < critical` exactly as in line 130 of
the source (including the lowercase `warnING` in its message). -/
def sslMain (difference warn critical : Int) : Option (String × Nat) :=
  if difference ≤ critical ∧ difference > 0 then
    some ("CRITICAL: certificate expires in " ++ toString difference ++ " days", 2)
  else if difference = 0 then
    some ("CRITICAL: certificate expired today", 2)
  else if difference < 0 then
    some ("CRITICAL: certificate expired " ++ toString difference.natAbs ++ " days ago", 2)
  else if difference ≤ warn ∧ difference < critical then
    some ("warnING: certificate expires in " ++ toString difference ++ " days", 1)
  else if difference > warn then
    some ("OK: certificate expires in " ++ toString difference ++ " days", 0)
  else none

/-- Message payload shared by all three branches of check_load's `main`:
`'load is {0}, {1}, {2}'.format(m1_load, m5_load, m15_load)`. -/
def loadMsg (m1 m5 m15 : ℚ) : String :=
  "load is " ++ toString m1 ++ ", " ++ toString m5 ++ ", " ++ toString m15

/-- from check_load.py, `main` (lines 110-137): the comprehensions
`[l for l, w in zip(load, warn) if l >= w]` and
`[l for l, c in zip(load, critical) if l >= c]` followed by truthiness
tests on the resulting lists, in source order. -/
def loadMain (m1 m5 m15 w1 w5 w15 c1 c5 c15 : ℚ) : Option (String × Nat) :=
  let load : List ℚ := [m1, m5, m15]
  let warn : List ℚ := [w1, w5, w15]
  let critical : List ℚ := [c1, c5, c15]
  let check_warn := (load.zip warn).filter (fun p => decide (p.1 ≥ p.2))
  let check_critical := (load.zip critical).filter (fun p => decide (p.1 ≥ p.2))
  if check_critical ≠ [] then
    some ("CRITICAL: " ++ loadMsg m1 m5 m15, 2)
  else if check_warn ≠ [] then
    some ("WARNING: " ++ loadMsg m1 m5 m15, 1)
  else if check_warn = [] ∧ check_critical = [] then
    some ("OK: " ++ loadMsg m1 m5 m15, 0)
  else none

/-- Message payload shared by all three branches of check_ping's `main`:
`'packet loss {0}%, rtt avg {1} ms'.format(pktloss, rtt)`. -/
def pingMsg (pktloss rtt : ℚ) : String :=
  "packet loss " ++ toString pktloss ++ "%, rtt avg " ++ toString rtt ++ " ms"

/-- from check_ping.py, `main` (lines 119-129): threshold chain over the
packet-loss and round-trip-time metrics. -/
def pingMain (pktloss rtt warn_pl warn_rtt critical_pl critical_rtt : ℚ) :
    Option (String × Nat) :=
  if pktloss ≥ critical_pl ∨ rtt ≥ critical_rtt then
    some ("CRITICAL: " ++ pingMsg pktloss rtt, 2)
  else if pktloss ≥ warn_pl ∨ rtt ≥ warn_rtt then
    some ("WARNING: " ++ pingMsg pktloss rtt, 1)
  else if pktloss < warn_pl ∧ rtt < warn_rtt then
    some ("OK: " ++ pingMsg pktloss rtt, 0)
  else none

/-- Numeric value of a decimal digit character. -/
def digitVal (c : Char) : Nat := c.toNat - '0'.toNat

/-- from check_ping.py, `get_packetloss` line 59: `re.search(r'(\d)%', s)`.
Scans left to right for the first position where a single digit is
immediately followed by `'%'` and returns that digit's value; `none`
models `re.search` returning `None` (on which `.group()` raises). -/
def searchDigitPct : List Char → Option Nat
  | c1 :: c2 :: rest =>
    if c1.isDigit && c2 = '%' then some (digitVal c1)
    else searchDigitPct (c2 :: rest)
  | _ => none

/-- from check_ping.py, `get_packetloss` (lines 51-60): the regex match is
stripped of its `'%'` and converted by `float`, so the returned value is
the matched digit as a number. -/
def get_packetloss (line : String) : Option ℚ :=
  (searchDigitPct line.data).map (fun n => (n : ℚ))

/-- True when the list contains no digit immediately followed by `'%'`
(no match of the pattern scanned by `searchDigitPct`). -/
def noDigitPct : List Char → Bool
  | c1 :: c2 :: rest => !(c1.isDigit && c2 = '%') && noDigitPct (c2 :: rest)
  | _ => true

/-- from check_uptime.py, `main` (lines 150-170): operator dispatch and the
two threshold chains; `uptime_seconds` is the collected uptime already in
seconds, `user_warn`/`user_critical` the thresholds after `to_seconds`
conversion, and `pretty` stands for the rendered `timedelta` interpolated
into every message. -/
def uptimeMain (operator : String) (uptime_seconds user_warn user_critical : ℚ)
    (pretty : String) : Option (String × Nat) :=
  if operator = "lt" then
    if uptime_seconds ≤ user_critical then
      some ("CRITICAL: server uptime is " ++ pretty, 2)
    else if uptime_seconds ≤ user_warn then
      some ("WARNING: server uptime is " ++ pretty, 1)
    else if uptime_seconds > user_warn then
      some ("OK: server uptime is " ++ pretty, 0)
    else none
  else if operator = "gt" then
    if uptime_seconds ≥ user_critical then
      some ("CRITICAL: server uptime is " ++ pretty, 2)
    else if uptime_seconds ≥ user_warn then
      some ("WARNING: server uptime is " ++ pretty, 1)
    else if uptime_seconds < user_warn then
      some ("OK: server uptime is " ++ pretty, 0)
    else none
  else none

/-- Substring containment of `"SSH"`, modelling Python's
`'SSH' in ssh_data`. -/
def containsSSH : List Char → Bool
  | [] => false
  | c :: rest => "SSH".data.isPrefixOf (c :: rest) || containsSSH rest

/-- from check_ssh.py, `main` (lines 85-92): one line and exit code decided
by whether the received banner contains `'SSH'`. -/
def sshMain (ssh_data : String) : String × Nat :=
  if containsSSH ssh_data.data then
    ("OK: " ++ ssh_data, 0)
  else
    ("WARNING: unexpected data " ++ ssh_data, 1)

/-- from check_response_code.py, `check_code_format` (lines 46-52): the
regex `^[0-9]{3}$` under Python's semantics — three decimal digits, where
the final `$` matches at the end of the string or just before one trailing
newline, so both `"DDD"` and `"DDD\n"` pass.  `true` means the format
check passes (the Python function returns instead of raising). -/
def check_code_format (code : String) : Bool :=
  match code.data with
  | [a, b, c] => a.isDigit && b.isDigit && c.isDigit
  | [a, b, c, d] => a.isDigit && b.isDigit && c.isDigit && d = '\n'
  | _ => false

/-- from check_response_code.py, module level (lines 64-79): format-check
both codes (a failure on either is caught and rendered as the WARNING
line), then compare. -/
def responseMain (expected actual : String) : String × Nat :=
  if !(check_code_format actual && check_code_format expected) then
    ("WARNING: invalid code: expected " ++ expected ++ ", got " ++ actual, 1)
  else if actual = expected then
    ("OK: expected " ++ expected ++ ", got " ++ actual, 0)
  else
    ("CRITICAL: expected " ++ expected ++ ", got " ++ actual, 2)

/-- Modelled from the spec: per-metric severity under the ascending
comparison policy (`value >= critical → CRITICAL`, else
`value >= warning → WARNING`, else OK). -/
def specAscSeverity (v warn critical : ℚ) : Sev :=
  if v ≥ critical then .critical
  else if v ≥ warn then .warning
  else .ok

/-- Modelled from the spec: overall load severity as the maximum of the
three per-metric ascending severities. -/
def specLoadSeverity (m1 m5 m15 w1 w5 w15 c1 c5 c15 : ℚ) : Sev :=
  sevMax (sevMax (specAscSeverity m1 w1 c1) (specAscSeverity m5 w5 c5))
    (specAscSeverity m15 w15 c15)

/-- Modelled from the spec: overall ping severity as the maximum of the
packet-loss and round-trip-time ascending severities. -/
def specPingSeverity (pktloss rtt warn_pl warn_rtt critical_pl critical_rtt : ℚ) : Sev :=
  sevMax (specAscSeverity pktloss warn_pl critical_pl)
    (specAscSeverity rtt warn_rtt critical_rtt)

/-! ### Helper lemmas -/

theorem specAsc_crit {v w c : ℚ} (h : c ≤ v) : specAscSeverity v w c = .critical := by
  unfold specAscSeverity
  rw [if_pos h]

theorem specAsc_warn {v w c : ℚ} (h1 : w ≤ v) (h2 : v < c) :
    specAscSeverity v w c = .warning := by
  unfold specAscSeverity
  rw [if_neg (not_le.mpr h2), if_pos h1]

theorem specAsc_ok {v w c : ℚ} (h1 : v < w) (h2 : w ≤ c) : specAscSeverity v w c = .ok := by
  unfold specAscSeverity
  rw [if_neg (not_le.mpr (lt_of_lt_of_le h1 h2)), if_neg (not_le.mpr h1)]

theorem timeDrift_mod (t : Nat) : timeDrift t = timeDrift (t % 86400) := by
  have e : t % 86400 % 86400 = t % 86400 := by omega
  unfold timeDrift
  rw [e]

theorem timeDrift_lt (t : Nat) : timeDrift t < 1440 := by
  have hx : (t % 86400 : Nat) < 86400 := Nat.mod_lt _ (by norm_num)
  have hxq : ((t % 86400 : Nat) : ℚ) ≤ 86399 := by
    exact_mod_cast Nat.lt_succ_iff.mp hx
  unfold timeDrift round3
  rw [round_eq]
  have hfl : ⌊(1000 : ℚ) * (((t % 86400 : Nat) : ℚ) / 60) + 1 / 2⌋ < 1439984 := by
    rw [Int.floor_lt]
    push_cast
    linarith
  have hfl2 : ⌊(1000 : ℚ) * (((t % 86400 : Nat) : ℚ) / 60) + 1 / 2⌋ ≤ 1439983 := by omega
  have hq : (⌊(1000 : ℚ) * (((t % 86400 : Nat) : ℚ) / 60) + 1 / 2⌋ : ℚ) ≤ 1439983 := by
    exact_mod_cast hfl2
  linarith

theorem timeDrift_zero (t : Nat) (h : 86400 ∣ t) : timeDrift t = 0 := by
  have hmod : t % 86400 = 0 := by omega
  unfold timeDrift round3
  rw [hmod]
  norm_num

theorem searchDigitPct_skip (a : List Char) (d : Char) (rest : List Char)
    (h : noDigitPct (a ++ [d]) = true) :
    searchDigitPct (a ++ d :: rest) = searchDigitPct (d :: rest) := by
  induction a with
  | nil => rfl
  | cons x a ih =>
    cases a with
    | nil =>
      simp only [noDigitPct, List.nil_append, List.cons_append, Bool.and_eq_true,
        Bool.not_eq_true'] at h
      simp only [List.cons_append, List.nil_append, searchDigitPct, h.1]
      rfl
    | cons y a2 =>
      simp only [noDigitPct, List.cons_append, Bool.and_eq_true, Bool.not_eq_true'] at h
      have h2 : noDigitPct ((y :: a2) ++ [d]) = true := by
        simpa [noDigitPct, List.cons_append, Bool.and_eq_true] using h.2
      simp only [List.cons_append, searchDigitPct, h.1]
      exact ih h2

theorem check_code_format_iff (s : String) :
    check_code_format s = true ↔
      ∃ a b c : Char, a.isDigit = true ∧ b.isDigit = true ∧ c.isDigit = true ∧
        (s.data = [a, b, c] ∨ s.data = [a, b, c, '\n']) := by
  rcases s with ⟨l⟩
  unfold check_code_format
  rcases l with _ | ⟨a, _ | ⟨b, _ | ⟨c, _ | ⟨d, _ | ⟨e, rest⟩⟩⟩⟩⟩
  · simp
  · simp
  · simp
  · constructor
    · intro h
      simp only [Bool.and_eq_true] at h
      exact ⟨a, b, c, h.1.1, h.1.2, h.2, Or.inl rfl⟩
    · rintro ⟨x, y, z, hx, hy, hz, h | h⟩
      · obtain ⟨rfl, rfl, rfl⟩ : a = x ∧ b = y ∧ c = z := by simpa using h
        simp [hx, hy, hz]
      · simp at h
  · constructor
    · intro h
      simp only [Bool.and_eq_true, decide_eq_true_eq] at h
      obtain ⟨⟨⟨ha, hb⟩, hc⟩, hd⟩ := h
      subst hd
      exact ⟨a, b, c, ha, hb, hc, Or.inr rfl⟩
    · rintro ⟨x, y, z, hx, hy, hz, h | h⟩
      · simp at h
      · obtain ⟨rfl, rfl, rfl, rfl⟩ : a = x ∧ b = y ∧ c = z ∧ d = '\n' := by simpa using h
        simp [hx, hy, hz]
  · simp

theorem loadMain_spec (m1 m5 m15 w1 w5 w15 c1 c5 c15 : ℚ) :
    loadMain m1 m5 m15 w1 w5 w15 c1 c5 c15 =
      some ((specLoadSeverity m1 m5 m15 w1 w5 w15 c1 c5 c15).label ++ ": " ++ loadMsg m1 m5 m15,
        (specLoadSeverity m1 m5 m15 w1 w5 w15 c1 c5 c15).num) := by
  unfold loadMain specLoadSeverity specAscSeverity sevMax
  rcases le_or_lt c1 m1 with h1 | h1 <;> rcases le_or_lt c5 m5 with h2 | h2 <;>
    rcases le_or_lt c15 m15 with h3 | h3 <;>
    rcases le_or_lt w1 m1 with g1 | g1 <;> rcases le_or_lt w5 m5 with g2 | g2 <;>
    rcases le_or_lt w15 m15 with g3 | g3 <;>
    simp_all [List.filter, Sev.label, Sev.num, not_le.mpr, le_of_lt]

theorem pingMain_spec (pl r wp wr cp cr : ℚ) :
    pingMain pl r wp wr cp cr =
      some ((specPingSeverity pl r wp wr cp cr).label ++ ": " ++ pingMsg pl r,
        (specPingSeverity pl r wp wr cp cr).num) := by
  unfold pingMain specPingSeverity specAscSeverity sevMax
  rcases le_or_lt cp pl with h1 | h1 <;> rcases le_or_lt cr r with h2 | h2 <;>
    rcases le_or_lt wp pl with g1 | g1 <;> rcases le_or_lt wr r with g2 | g2 <;>
    simp_all [Sev.label, Sev.num, not_le.mpr, le_of_lt]

/-! ### Claim theorems -/

/-- C1: for every ascending-policy check — logged-in users, time drift, and
each ping/load metric taken alone (the remaining metrics held below their
warning thresholds) — with warning threshold w and critical threshold c
where w ≤ c, a measured value v yields CRITICAL with exit code 2 when
v ≥ c, WARNING with exit code 1 when w ≤ v < c, and OK with exit code 0
when v < w. -/
theorem ascending_policy_C1
    (u uw uc : Int) (hu : uw ≤ uc)
    (v w c : ℚ) (h : w ≤ c) (ts : String)
    (s sw sc : ℚ) (hs1 : sw ≤ sc) (hs2 : s < sw) :
    ((uc ≤ u → usersMain u uw uc = some ("CRITICAL: " ++ toString u ++ " logged in users", 2)) ∧
     (uw ≤ u → u < uc → usersMain u uw uc = some ("WARNING: " ++ toString u ++ " logged in users", 1)) ∧
     (u < uw → usersMain u uw uc = some ("OK: " ++ toString u ++ " logged in users", 0))) ∧
    ((c ≤ v → timeEval v w c ts = some ("CRITICAL: drift is " ++ toString v ++ ", time is " ++ ts ++ " UTC", 2)) ∧
     (w ≤ v → v < c → timeEval v w c ts = some ("WARNING: drift is " ++ toString v ++ ", time is " ++ ts ++ " UTC", 1)) ∧
     (v < w → timeEval v w c ts = some ("OK: drift is " ++ toString v ++ ", time is " ++ ts ++ " UTC", 0))) ∧
    ((c ≤ v → pingMain v s w sw c sc = some ("CRITICAL: " ++ pingMsg v s, 2)) ∧
     (w ≤ v → v < c → pingMain v s w sw c sc = some ("WARNING: " ++ pingMsg v s, 1)) ∧
     (v < w → pingMain v s w sw c sc = some ("OK: " ++ pingMsg v s, 0))) ∧
    ((c ≤ v → pingMain s v sw w sc c = some ("CRITICAL: " ++ pingMsg s v, 2)) ∧
     (w ≤ v → v < c → pingMain s v sw w sc c = some ("WARNING: " ++ pingMsg s v, 1)) ∧
     (v < w → pingMain s v sw w sc c = some ("OK: " ++ pingMsg s v, 0))) ∧
    ((c ≤ v → loadMain v s s w sw sw c sc sc = some ("CRITICAL: " ++ loadMsg v s s, 2)) ∧
     (w ≤ v → v < c → loadMain v s s w sw sw c sc sc = some ("WARNING: " ++ loadMsg v s s, 1)) ∧
     (v < w → loadMain v s s w sw sw c sc sc = some ("OK: " ++ loadMsg v s s, 0))) ∧
    ((c ≤ v → loadMain s v s sw w sw sc c sc = some ("CRITICAL: " ++ loadMsg s v s, 2)) ∧
     (w ≤ v → v < c → loadMain s v s sw w sw sc c sc = some ("WARNING: " ++ loadMsg s v s, 1)) ∧
     (v < w → loadMain s v s sw w sw sc c sc = some ("OK: " ++ loadMsg s v s, 0))) ∧
    ((c ≤ v → loadMain s s v sw sw w sc sc c = some ("CRITICAL: " ++ loadMsg s s v, 2)) ∧
     (w ≤ v → v < c → loadMain s s v sw sw w sc sc c = some ("WARNING: " ++ loadMsg s s v, 1)) ∧
     (v < w → loadMain s s v sw sw w sc sc c = some ("OK: " ++ loadMsg s s v, 0))) := by
  have eo : specAscSeverity s sw sc = .ok := specAsc_ok hs2 hs1
  refine ⟨⟨?_, ?_, ?_⟩, ⟨?_, ?_, ?_⟩, ⟨?_, ?_, ?_⟩, ⟨?_, ?_, ?_⟩,
    ⟨?_, ?_, ?_⟩, ⟨?_, ?_, ?_⟩, ⟨?_, ?_, ?_⟩⟩
  · intro hv
    unfold usersMain
    split_ifs <;> first | rfl | omega
  · intro hv1 hv2
    unfold usersMain
    split_ifs <;> first | rfl | omega
  · intro hv
    unfold usersMain
    split_ifs <;> first | rfl | omega
  · intro hv
    unfold timeEval
    split_ifs <;> first | rfl | (exfalso; linarith)
  · intro hv1 hv2
    unfold timeEval
    split_ifs <;> first | rfl | (exfalso; linarith)
  · intro hv
    unfold timeEval
    split_ifs <;> first | rfl | (exfalso; linarith)
  · intro hv
    have e : specPingSeverity v s w sw c sc = .critical := by
      unfold specPingSeverity
      rw [specAsc_crit hv, eo]
      rfl
    rw [pingMain_spec, e]
    rfl
  · intro hv1 hv2
    have e : specPingSeverity v s w sw c sc = .warning := by
      unfold specPingSeverity
      rw [specAsc_warn hv1 hv2, eo]
      rfl
    rw [pingMain_spec, e]
    rfl
  · intro hv
    have e : specPingSeverity v s w sw c sc = .ok := by
      unfold specPingSeverity
      rw [specAsc_ok hv h, eo]
      rfl
    rw [pingMain_spec, e]
    rfl
  · intro hv
    have e : specPingSeverity s v sw w sc c = .critical := by
      unfold specPingSeverity
      rw [specAsc_crit hv, eo]
      rfl
    rw [pingMain_spec, e]
    rfl
  · intro hv1 hv2
    have e : specPingSeverity s v sw w sc c = .warning := by
      unfold specPingSeverity
      rw [specAsc_warn hv1 hv2, eo]
      rfl
    rw [pingMain_spec, e]
    rfl
  · intro hv
    have e : specPingSeverity s v sw w sc c = .ok := by
      unfold specPingSeverity
      rw [specAsc_ok hv h, eo]
      rfl
    rw [pingMain_spec, e]
    rfl
  · intro hv
    have e : specLoadSeverity v s s w sw sw c sc sc = .critical := by
      unfold specLoadSeverity
      rw [specAsc_crit hv, eo]
      rfl
    rw [loadMain_spec, e]
    rfl
  · intro hv1 hv2
    have e : specLoadSeverity v s s w sw sw c sc sc = .warning := by
      unfold specLoadSeverity
      rw [specAsc_warn hv1 hv2, eo]
      rfl
    rw [loadMain_spec, e]
    rfl
  · intro hv
    have e : specLoadSeverity v s s w sw sw c sc sc = .ok := by
      unfold specLoadSeverity
      rw [specAsc_ok hv h, eo]
      rfl
    rw [loadMain_spec, e]
    rfl
  · intro hv
    have e : specLoadSeverity s v s sw w sw sc c sc = .critical := by
      unfold specLoadSeverity
      rw [specAsc_crit hv, eo]
      rfl
    rw [loadMain_spec, e]
    rfl
  · intro hv1 hv2
    have e : specLoadSeverity s v s sw w sw sc c sc = .warning := by
      unfold specLoadSeverity
      rw [specAsc_warn hv1 hv2, eo]
      rfl
    rw [loadMain_spec, e]
    rfl
  · intro hv
    have e : specLoadSeverity s v s sw w sw sc c sc = .ok := by
      unfold specLoadSeverity
      rw [specAsc_ok hv h, eo]
      rfl
    rw [loadMain_spec, e]
    rfl
  · intro hv
    have e : specLoadSeverity s s v sw sw w sc sc c = .critical := by
      unfold specLoadSeverity
      rw [specAsc_crit hv, eo]
      rfl
    rw [loadMain_spec, e]
    rfl
  · intro hv1 hv2
    have e : specLoadSeverity s s v sw sw w sc sc c = .warning := by
      unfold specLoadSeverity
      rw [specAsc_warn hv1 hv2, eo]
      rfl
    rw [loadMain_spec, e]
    rfl
  · intro hv
    have e : specLoadSeverity s s v sw sw w sc sc c = .ok := by
      unfold specLoadSeverity
      rw [specAsc_ok hv h, eo]
      rfl
    rw [loadMain_spec, e]
    rfl

/-- C1 witness: concrete instances — 5 users against warning 3 / critical 4
is CRITICAL, drift 2 against warning 1 / critical 5 is WARNING, and a lone
1-minute load of 2 against warning 1 / critical 5 (other metrics silent)
is WARNING. -/
theorem ascending_policy_C1_witness :
    usersMain 5 3 4 = some ("CRITICAL: " ++ toString (5 : Int) ++ " logged in users", 2) ∧
    timeEval 2 1 5 "t" = some ("WARNING: drift is " ++ toString (2 : ℚ) ++ ", time is " ++ "t" ++ " UTC", 1) ∧
    loadMain 2 0 0 1 10 10 5 20 20 = some ("WARNING: " ++ loadMsg 2 0 0, 1) := by
  obtain ⟨husers, htime, -, -, hl1, -, -⟩ :=
    ascending_policy_C1 5 3 4 (by decide) 2 1 5 (by norm_num) "t" 0 10 20 (by norm_num) (by norm_num)
  exact ⟨husers.1 (by decide), htime.2.1 (by norm_num) (by norm_num),
    hl1.2.1 (by norm_num) (by norm_num)⟩

/-- C4: for the multi-metric checks (load's three metrics, ping's packet
loss and round-trip time) the overall result is exactly the maximum of the
per-metric ascending severities — its line starts with that severity's
keyword and the exit code is the severity's numeric value; in particular
loads (1, 4, 6) against warnings (1, 3, 5) and criticals (5, 7, 9) give
overall WARNING with exit code 1. -/
theorem aggregation_C4 :
    (∀ m1 m5 m15 w1 w5 w15 c1 c5 c15 : ℚ,
      loadMain m1 m5 m15 w1 w5 w15 c1 c5 c15 =
        some ((specLoadSeverity m1 m5 m15 w1 w5 w15 c1 c5 c15).label ++ ": " ++ loadMsg m1 m5 m15,
          (specLoadSeverity m1 m5 m15 w1 w5 w15 c1 c5 c15).num)) ∧
    (∀ pl r wp wr cp cr : ℚ,
      pingMain pl r wp wr cp cr =
        some ((specPingSeverity pl r wp wr cp cr).label ++ ": " ++ pingMsg pl r,
          (specPingSeverity pl r wp wr cp cr).num)) ∧
    specLoadSeverity 1 4 6 1 3 5 5 7 9 = .warning ∧
    loadMain 1 4 6 1 3 5 5 7 9 = some ("WARNING: load is 1, 4, 6", 1) := by
  refine ⟨loadMain_spec, pingMain_spec, by decide, by decide⟩

/-- C8: the uptime check invoked with operator `lt` and thresholds
warning ≥ critical yields CRITICAL with exit code 2 when the uptime
v ≤ critical, WARNING with exit code 1 when critical < v ≤ warning, and OK
with exit code 0 when v > warning. -/
theorem uptime_lt_policy_C8 (v w c : ℚ) (h : c ≤ w) (pretty : String) :
    (v ≤ c → uptimeMain "lt" v w c pretty = some ("CRITICAL: server uptime is " ++ pretty, 2)) ∧
    (c < v → v ≤ w → uptimeMain "lt" v w c pretty = some ("WARNING: server uptime is " ++ pretty, 1)) ∧
    (w < v → uptimeMain "lt" v w c pretty = some ("OK: server uptime is " ++ pretty, 0)) := by
  refine ⟨?_, ?_, ?_⟩ <;> intros <;> unfold uptimeMain <;> split_ifs <;>
    first | rfl | (exfalso; linarith) | simp_all

/-- C8 witness: uptime 0 against warning 5 / critical 1 is CRITICAL, uptime
3 is WARNING, uptime 9 is OK. -/
theorem uptime_lt_policy_C8_witness :
    uptimeMain "lt" 0 5 1 "u" = some ("CRITICAL: server uptime is " ++ "u", 2) ∧
    uptimeMain "lt" 3 5 1 "u" = some ("WARNING: server uptime is " ++ "u", 1) ∧
    uptimeMain "lt" 9 5 1 "u" = some ("OK: server uptime is " ++ "u", 0) :=
  ⟨(uptime_lt_policy_C8 0 5 1 (by norm_num) "u").1 (by norm_num),
   (uptime_lt_policy_C8 3 5 1 (by norm_num) "u").2.1 (by norm_num) (by norm_num),
   (uptime_lt_policy_C8 9 5 1 (by norm_num) "u").2.2 (by norm_num)⟩

/-- C6 counterexample: the expected code "123\n" is not exactly three
decimal digits — it is four characters long — yet the source's format
check passes it, because Python's regex `$` also matches just before a
single trailing newline; so against the actual code "200" the program
prints the CRITICAL line and exits 2 where the claim, as stated, requires
WARNING with exit code 1. -/
theorem response_code_C6_counterexample :
    "123\n".length ≠ 3 ∧
    check_code_format "123\n" = true ∧
    responseMain "123\n" "200" = ("CRITICAL: expected " ++ "123\n" ++ ", got " ++ "200", 2) ∧
    (responseMain "123\n" "200").2 ≠ 1 :=
  ⟨by decide, by decide, by decide, by decide⟩

/-- C6 (amended): the source's format check accepts exactly three decimal
digits optionally followed by one trailing newline (Python's `$` also
matches just before a final newline) — the first conjunct pins that down.
With that check: if either code fails it the result is WARNING with exit
code 1; if both codes pass it and differ the result is CRITICAL with exit
code 2; and the result is OK with exit code 0 iff both codes pass it and
are equal. -/
theorem response_code_C6 (expected actual : String) :
    (check_code_format expected = true ↔
      ∃ a b c : Char, a.isDigit = true ∧ b.isDigit = true ∧ c.isDigit = true ∧
        (expected.data = [a, b, c] ∨ expected.data = [a, b, c, '\n'])) ∧
    ((check_code_format actual = false ∨ check_code_format expected = false) →
      responseMain expected actual =
        ("WARNING: invalid code: expected " ++ expected ++ ", got " ++ actual, 1)) ∧
    (check_code_format expected = true → check_code_format actual = true → actual ≠ expected →
      responseMain expected actual =
        ("CRITICAL: expected " ++ expected ++ ", got " ++ actual, 2)) ∧
    (responseMain expected actual = ("OK: expected " ++ expected ++ ", got " ++ actual, 0) ↔
      check_code_format expected = true ∧ check_code_format actual = true ∧ actual = expected) := by
  refine ⟨check_code_format_iff expected, ?_, ?_, ?_⟩
  · intro h
    unfold responseMain
    rcases h with h | h <;> rw [h] <;> simp
  · intro hE hA hne
    unfold responseMain
    rw [hE, hA]
    simp [hne]
  · unfold responseMain
    rcases hA : check_code_format actual <;> rcases hE : check_code_format expected <;>
      by_cases heq : actual = expected <;> simp [hA, hE, heq, Prod.ext_iff]

/-- C6 witness: malformed expected code "abcd" is WARNING, mismatch
200 vs 404 is CRITICAL, matching 200 vs 200 is OK, and "123\n" passes the
format check via the trailing-newline alternative. -/
theorem response_code_C6_witness :
    responseMain "abcd" "200" = ("WARNING: invalid code: expected " ++ "abcd" ++ ", got " ++ "200", 1) ∧
    responseMain "200" "404" = ("CRITICAL: expected " ++ "200" ++ ", got " ++ "404", 2) ∧
    responseMain "200" "200" = ("OK: expected " ++ "200" ++ ", got " ++ "200", 0) ∧
    check_code_format "123\n" = true :=
  ⟨(response_code_C6 "abcd" "200").2.1 (Or.inr (by decide)),
   (response_code_C6 "200" "404").2.2.1 (by decide) (by decide) (by decide),
   (response_code_C6 "200" "200").2.2.2.mpr ⟨by decide, by decide, rfl⟩,
   (response_code_C6 "123\n" "200").1.mpr ⟨'1', '2', '3', by decide, by decide, by decide,
     Or.inr (by decide)⟩⟩

/-- C7 counterexample: a banner without "SSH" produces the WARNING line
with exit code 1, not a forced CRITICAL result — the exit code is 1, not 2. -/
theorem ssh_banner_C7_counterexample :
    containsSSH "Connection refused".data = false ∧
    sshMain "Connection refused" = ("WARNING: unexpected data Connection refused", 1) ∧
    (sshMain "Connection refused").2 ≠ 2 :=
  ⟨by decide, by decide, by decide⟩

/-- C7 (amended): whenever the banner data received from the host does not
contain the substring "SSH", the check produces a WARNING result with exit
code 1 (the source prints the `WARNING: unexpected data` line and exits 1,
matching its own module docstring). -/
theorem ssh_banner_C7 (s : String) (h : containsSSH s.data = false) :
    sshMain s = ("WARNING: unexpected data " ++ s, 1) := by
  unfold sshMain
  rw [h]
  rfl

/-- C7 witness: the amended claim at the banner "Connection closed". -/
theorem ssh_banner_C7_witness :
    sshMain "Connection closed" = ("WARNING: unexpected data " ++ "Connection closed", 1) :=
  ssh_banner_C7 "Connection closed" (by decide)

/-- C3: a days-until-expiry d ≤ 0 is CRITICAL with exit code 2 regardless
of the thresholds, with message "certificate expired today" when d = 0 and
"certificate expired N days ago" (N = |d|) when d < 0. -/
theorem ssl_expired_C3 (d warn critical : Int) (h : d ≤ 0) :
    (d = 0 → sslMain d warn critical = some ("CRITICAL: certificate expired today", 2)) ∧
    (d < 0 → sslMain d warn critical =
      some ("CRITICAL: certificate expired " ++ toString d.natAbs ++ " days ago", 2)) := by
  constructor
  · intro h0
    subst h0
    unfold sslMain
    split_ifs <;> first | rfl | omega
  · intro hneg
    unfold sslMain
    split_ifs <;> first | rfl | omega

/-- C3 witness: expiry today and expiry three days ago, with thresholds
warning 30 / critical 5. -/
theorem ssl_expired_C3_witness :
    sslMain 0 30 5 = some ("CRITICAL: certificate expired today", 2) ∧
    sslMain (-3) 30 5 =
      some ("CRITICAL: certificate expired " ++ toString ((-3 : Int)).natAbs ++ " days ago", 2) :=
  ⟨(ssl_expired_C3 0 30 5 (by decide)).1 rfl,
   (ssl_expired_C3 (-3) 30 5 (by decide)).2 (by decide)⟩

/-- C2 (code bug record): at d = 10, warning = 15, critical = 5 no branch
of check_ssl's `main` fires — the process prints nothing and exits 0
instead of the WARNING/exit-1 the claim states; indeed no input at all can
make the check exit with code 1, because the warning branch's condition
`difference <= warn and difference < critical` is unsatisfiable once the
earlier branches have been passed. -/
theorem ssl_warning_band_C2 :
    sslMain 10 15 5 = none ∧
    ∀ (d warn critical : Int), (sslMain d warn critical).map Prod.snd ≠ some 1 := by
  constructor
  · decide
  · intro d warn critical
    unfold sslMain
    split_ifs <;> simp <;> omega

/-- C5 (code bug record): an invocation of the certificate check with
days-until-expiry 7, warning 30, critical 5 reaches evaluation but writes
no status line at all and exits 0, violating the one-line/severity-keyword
invariant. -/
theorem single_status_line_C5 : sslMain 7 30 5 = none := by decide

/-- C9 counterexample: a true drift of exactly 24 hours (86400 seconds) is
reported as drift 0, and with positive warning threshold 1 but critical
threshold 0 the check exits CRITICAL (code 2), not OK as the claim's final
clause states for any positive warning threshold. -/
theorem time_drift_C9_counterexample :
    timeDrift 86400 = 0 ∧ (timeMain 86400 1 0 "x").map Prod.snd = some 2 := by
  have h : timeDrift 86400 = 0 := timeDrift_zero 86400 ⟨1, by norm_num⟩
  exact ⟨h, by simp [timeMain, timeEval, h]⟩

/-- C9 (amended): the time-drift check computes the drift from only the
seconds field of the absolute datetime difference, so the computed drift
equals that of the true difference reduced modulo 24 hours and is always
strictly below 1440 minutes; a true drift that is an exact multiple of
24 hours is reported as drift 0 and evaluates to OK for any positive
warning threshold, provided the critical threshold is positive as well. -/
theorem time_drift_mod24h_C9 (t : Nat) (w c : ℚ) (ts : String) :
    timeDrift t = timeDrift (t % 86400) ∧
    timeDrift t < 1440 ∧
    (86400 ∣ t → timeDrift t = 0) ∧
    (86400 ∣ t → 0 < w → 0 < c →
      timeMain t w c ts =
        some ("OK: drift is " ++ toString (0 : ℚ) ++ ", time is " ++ ts ++ " UTC", 0)) := by
  refine ⟨timeDrift_mod t, timeDrift_lt t, timeDrift_zero t, ?_⟩
  intro hdvd hw hc
  have h0 := timeDrift_zero t hdvd
  unfold timeMain
  rw [h0]
  unfold timeEval
  rw [if_neg (not_le.mpr hc), if_neg (not_le.mpr hw), if_pos hw]

/-- C9 witness: the amended claim at a true drift of exactly 24 hours with
warning 1 and critical 1. -/
theorem time_drift_mod24h_C9_witness :
    timeDrift 86400 = 0 ∧
    timeMain 86400 1 1 "x" =
      some ("OK: drift is " ++ toString (0 : ℚ) ++ ", time is " ++ "x" ++ " UTC", 0) := by
  have h := time_drift_mod24h_C9 86400 1 1 "x"
  exact ⟨h.2.2.1 ⟨1, by norm_num⟩, h.2.2.2 ⟨1, by norm_num⟩ (by norm_num) (by norm_num)⟩

/-- C10: the ping check's packet-loss extraction matches a single digit
immediately before the percent sign, so whenever the summary line carries
a multi-digit loss percentage (and no digit-percent pair occurs earlier in
the line) only the final digit is returned — a 25% loss comes back as 5 —
and the threshold evaluation then runs on that truncated value (here the
truncated 5 yields OK against warnings (10, 100) and criticals (20, 200)
even though the true loss 25 exceeds the critical threshold 20). -/
theorem packetloss_truncation_C10 :
    (∀ (a b : List Char) (d e : Char), d.isDigit = true → e.isDigit = true →
      noDigitPct (a ++ [d, e]) = true →
      searchDigitPct (a ++ d :: e :: '%' :: b) = some (digitVal e)) ∧
    get_packetloss "5 packets transmitted, 4 received, 25% packet loss, time 4004ms" = some 5 ∧
    (get_packetloss "5 packets transmitted, 4 received, 25% packet loss, time 4004ms").map
      (fun pl => pingMain pl 50 10 100 20 200) =
      some (some ("OK: " ++ pingMsg 5 50, 0)) := by
  refine ⟨?_, by decide, by decide⟩
  intro a b d e hd he h
  have h2 : noDigitPct ((a ++ [d]) ++ [e]) = true := by
    simpa [List.append_assoc] using h
  have hskip := searchDigitPct_skip (a ++ [d]) e ('%' :: b) h2
  have eassoc : (a ++ [d]) ++ e :: '%' :: b = a ++ d :: e :: '%' :: b := by
    simp [List.append_assoc]
  rw [eassoc] at hskip
  rw [hskip]
  simp [searchDigitPct, he]

/-- C10 witness: the general last-digit statement applied to the fragment
", 25% loss". -/
theorem packetloss_truncation_C10_witness :
    searchDigitPct (", ".data ++ '2' :: '5' :: '%' :: " loss".data) = some (digitVal '5') :=
  packetloss_truncation_C10.1 ", ".data " loss".data '2' '5' (by decide) (by decide) (by decide)

end NagiosPlugins
